import Mathlib

/-!
Shallow embedding of the iris-js advertising SDK:
- `IrisClient` (HTTP client, `packages/api`): `getAd`, `handleError`,
  `updateExcludedTopics`, `getExcludedTopics`.
- `IrisAd` (React view component, `packages/react`): render guard, one-shot
  impression effect, `handleButtonClick`.

JavaScript runtime values that can be `undefined`, `null`, or present are
modelled by `JsVal`; truthiness follows JavaScript semantics (empty string is
falsy, `null`/`undefined` are falsy, present objects are truthy).  Mutable
arrays shared by reference are modelled by a small heap (`Heap`) of string
lists addressed by `Nat`; storing an array field without copying stores the
address, `[...xs]` allocates a fresh address with the same contents.
-/

/-- A JavaScript field value: `undefined`, `null`, or a present value. -/
inductive JsVal (α : Type) where
  | undef : JsVal α
  | null : JsVal α
  | val : α → JsVal α
deriving DecidableEq, Repr

/-- JavaScript truthiness of a string-typed field: present and non-empty. -/
def JsVal.truthyStr : JsVal String → Bool
  | .val s => s ≠ ""
  | _ => false

/-- Whether a JS value is a present (non-null, non-undefined) value; a
present object is always truthy in JavaScript. -/
def JsVal.isVal {α : Type} : JsVal α → Bool
  | .val _ => true
  | _ => false

/-- JavaScript nullish coalescing `x ?? d`: `null`/`undefined` fall back to
the default, every present value (including the empty string) is kept. -/
def JsVal.nullishOr : JsVal String → String → String
  | .val s, _ => s
  | _, d => d

/-- The raw JSON body of a `/bids` response (`response.data` in `getAd`),
as the server may send it: a required-by-contract `text` plus optional
`impUrl`, `clickUrl`, `payout`, and arbitrary further fields (`extra`)
that the client does not copy into its result. -/
structure AdData where
  text : JsVal String
  impUrl : JsVal String
  clickUrl : JsVal String
  payout : JsVal Int
  extra : List (String × String) := []
deriving DecidableEq, Repr

/-- The `AdResponse` value `getAd` constructs on success: the four fields
copied verbatim from the response body (`shared-types` / `IrisClient.getAd`). -/
structure AdResponse where
  text : JsVal String
  impUrl : JsVal String
  clickUrl : JsVal String
  payout : JsVal Int
deriving DecidableEq, Repr

/-- The status/statusText/data of an error response attached to an Axios
error (`axiosError.response`). -/
structure ErrResponse where
  status : Nat
  statusText : String
  data : String
deriving DecidableEq, Repr

/-- The failure value a rejected transport promise carries, as inspected by
`IrisClient.handleError`: the `axios.isAxiosError` discriminator, the
optional `response` object, the optional `request` object (only its
presence matters), the `message`, and the optional `code`. -/
structure JsError where
  isAxiosError : Bool
  response : JsVal ErrResponse
  request : JsVal Unit
  message : String
  code : JsVal String
deriving DecidableEq, Repr

/-- One `console.error` diagnostic entry written by `IrisClient.handleError`,
one constructor per branch of the error taxonomy. -/
inductive LogEntry where
  | apiError (tag : String) (status : Nat) (statusText : String) (data : String)
  | networkError (tag : String) (message : String) (code : JsVal String)
  | requestError (tag : String) (message : String)
  | unexpectedError (tag : String) (err : JsError)
deriving DecidableEq, Repr

/-- Heap of JavaScript string arrays, addressed by allocation index. -/
abbrev Heap := List (List String)

/-- Read the array stored at an address (out-of-range reads give `[]`). -/
def readH (h : Heap) (a : Nat) : List String := h.getD a []

/-- In-place mutation of the array at an address. -/
def writeH (h : Heap) (a : Nat) (v : List String) : Heap := h.set a v

/-- Allocate a fresh array (`[...xs]` and array literals): returns the new
address and the extended heap. -/
def allocH (h : Heap) (v : List String) : Nat × Heap := (h.length, h ++ [v])

/-- The private fields of an `IrisClient` instance.  `excludedTopicsRef` is
the address of the array the `excludedTopics` field refers to (the HTTP
transport configuration is fixed at construction and not modelled beyond
the claims' needs). -/
structure IrisClientState where
  apiKey : String
  excludedTopicsRef : Nat
deriving DecidableEq, Repr

namespace IrisClient

/-- `new IrisClient(apiKey, excludedTopics)`: stores `apiKey` and the
`excludedTopics` array reference itself (`this.excludedTopics =
excludedTopics`, no copy is taken). -/
def construct (apiKey : String) (excludedTopics : Nat) : IrisClientState :=
  { apiKey := apiKey, excludedTopicsRef := excludedTopics }

/-- `updateExcludedTopics(excludedTopics)`: replaces the stored reference
with the given one (`this.excludedTopics = excludedTopics`). -/
def updateExcludedTopics (st : IrisClientState) (excludedTopics : Nat) :
    IrisClientState :=
  { st with excludedTopicsRef := excludedTopics }

/-- `getExcludedTopics()`: returns `[...this.excludedTopics]`, a freshly
allocated copy of the stored array. -/
def getExcludedTopics (st : IrisClientState) (h : Heap) : Nat × Heap :=
  allocH h (readH h st.excludedTopicsRef)

/-- `handleError(error, method)`: classifies the failure exactly as the
source does and returns the single `console.error` entry it writes. -/
def handleError (error : JsError) (method : String) : LogEntry :=
  if error.isAxiosError then
    match error.response with
    | .val r =>
        .apiError ("[IrisClient." ++ method ++ "] API Error:")
          r.status r.statusText r.data
    | _ =>
        if error.request.isVal then
          .networkError ("[IrisClient." ++ method ++ "] Network Error:")
            "No response received from server" error.code
        else
          .requestError ("[IrisClient." ++ method ++ "] Request Error:")
            error.message
  else
    .unexpectedError ("[IrisClient." ++ method ++ "] Unexpected Error:") error

end IrisClient

/-- The JSON body `getAd` POSTs to `/bids`; `excludedTopics` is the content
of the client's array at call time (JSON serialisation snapshots it when
the request is sent). -/
structure RequestBody where
  apiKey : String
  inputPrompt : String
  responsePrompt : String
  userId : String
  excludedTopics : List String
deriving DecidableEq, Repr

/-- Outcome of the awaited `httpClient.post` call: either a resolved
response carrying `response.data`, or a rejected promise carrying the
failure value. -/
inductive TransportResult where
  | success (data : JsVal AdData)
  | failure (e : JsError)
deriving DecidableEq, Repr

/-- Everything one `getAd` call does: the request body it sent, the value it
returned, and the diagnostic log entries it wrote. -/
structure GetAdOutcome where
  body : RequestBody
  result : Option AdResponse
  logs : List LogEntry
deriving DecidableEq, Repr

namespace IrisClient

/-- `getAd(inputPrompt, responsePrompt, userId)`: posts the request body,
then either copies the four ad fields verbatim when `response.data &&
response.data.text` is truthy, returns `null` when it is not, or catches a
rejection, logs it via `handleError`, and returns `null`.  The function is
total: no failure is raised to the caller. -/
def getAd (st : IrisClientState) (h : Heap)
    (inputPrompt responsePrompt userId : String)
    (transport : TransportResult) : GetAdOutcome :=
  let body : RequestBody :=
    { apiKey := st.apiKey, inputPrompt := inputPrompt,
      responsePrompt := responsePrompt, userId := userId,
      excludedTopics := readH h st.excludedTopicsRef }
  match transport with
  | .success data =>
      match data with
      | .val d =>
          if d.text.truthyStr then
            { body := body,
              result := some { text := d.text, impUrl := d.impUrl,
                               clickUrl := d.clickUrl, payout := d.payout },
              logs := [] }
          else
            { body := body, result := none, logs := [] }
      | _ => { body := body, result := none, logs := [] }
  | .failure e =>
      { body := body, result := none, logs := [handleError e "getAd"] }

end IrisClient

/-- The props of the `IrisAd` React component.  `ad` can be `null`/absent at
runtime despite its declared type (the component guards `!ad`);
`onButtonClick` records whether a custom handler was supplied; defaults
(`buttonText = 'Learn More'`, `show = true`) apply on `undefined` only, as
JavaScript destructuring defaults do. -/
structure IrisAdProps where
  ad : JsVal AdResponse := .undef
  className : JsVal String := .undef
  textClassName : JsVal String := .undef
  buttonClassName : JsVal String := .undef
  buttonText : JsVal String := .undef
  onButtonClick : Bool := false
  showProp : JsVal Bool := .undef
deriving DecidableEq, Repr

/-- The `show` prop (named `showProp` here because `show` is reserved in
Lean) after its destructuring default and the `!show` guard: `undefined`
becomes the default `true`; `null`/`false` are falsy. -/
def IrisAdProps.showB (p : IrisAdProps) : Bool :=
  match p.showProp with
  | .undef => true
  | .null => false
  | .val b => b

/-- The `buttonText` prop after its destructuring default. -/
def IrisAdProps.buttonLabel (p : IrisAdProps) : JsVal String :=
  match p.buttonText with
  | .undef => .val "Learn More"
  | x => x

/-- The DOM structure the component returns when it renders: container,
text region and button, each with its class prop and its `data-iris-ad`
marker attribute. -/
structure Rendered where
  containerClass : JsVal String
  containerMarker : String
  textClass : JsVal String
  textMarker : String
  text : JsVal String
  buttonClass : JsVal String
  buttonMarker : String
  buttonLabel : JsVal String
deriving DecidableEq, Repr

/-- One outbound `fetch` request issued by the impression effect. -/
structure FetchRequest where
  url : String
  method : String
  mode : String
deriving DecidableEq, Repr

/-- What the component reacts to when activated: invoke the supplied
handler with a URL and the event, open a window, or do nothing. -/
inductive ClickAction where
  | callHandler (url : String) (ev : Nat)
  | openWindow (url : String) (target : String) (features : String)
  | noop
deriving DecidableEq, Repr

namespace IrisAd

/-- The JSX the component returns once past the `!show || !ad` guard. -/
def renderBody (p : IrisAdProps) (a : AdResponse) : Rendered :=
  { containerClass := p.className, containerMarker := "container",
    textClass := p.textClassName, textMarker := "text",
    text := a.text,
    buttonClass := p.buttonClassName, buttonMarker := "button",
    buttonLabel := p.buttonLabel }

/-- The component's render function: `if (!show || !ad) return null`, else
the container/text/button structure. -/
def render (p : IrisAdProps) : Option Rendered :=
  match p.ad, p.showB with
  | .val a, true => some (renderBody p a)
  | _, _ => none

/-- The body of the impression `useEffect`: `if (!ad.impUrl) return;` else
`fetch(ad.impUrl, \x7b method: 'GET', mode: 'no-cors' \x7d)`. -/
def impressionRequests (a : AdResponse) : List FetchRequest :=
  match a.impUrl with
  | .val s => if s = "" then [] else [{ url := s, method := "GET", mode := "no-cors" }]
  | _ => []

/-- The component instance's only state: whether its mount effect (empty
dependency array) has already run. -/
structure InstState where
  effectFired : Bool
deriving DecidableEq, Repr

/-- One render of a mounted instance: the `!show || !ad` guard returns
`null` before any hook runs; otherwise the structure is rendered and the
`useEffect(..., [])` body runs exactly on the first such render. -/
def renderStep (p : IrisAdProps) (s : InstState) :
    Option Rendered × List FetchRequest × InstState :=
  match p.ad, p.showB with
  | .val a, true =>
      if s.effectFired then (some (renderBody p a), [], s)
      else (some (renderBody p a), impressionRequests a, ⟨true⟩)
  | _, _ => (none, [], s)

/-- Run a mounted instance through a sequence of renders (the props of each
re-render), pairing each render's props with the requests it issued. -/
def runMount : List IrisAdProps → InstState → List (IrisAdProps × List FetchRequest)
  | [], _ => []
  | p :: ps, s =>
      let r := renderStep p s
      (p, r.2.1) :: runMount ps r.2.2

/-- A render in which the component is active: `show` truthy and `ad`
present, so the guard is passed and hooks run. -/
def activeStep (p : IrisAdProps) : Bool :=
  p.ad.isVal && p.showB

/-- The first active render's props, if any. -/
def firstActive : List IrisAdProps → Option IrisAdProps
  | [] => none
  | p :: ps => if activeStep p then some p else firstActive ps

/-- The impression requests the mount effect issues when it runs with the
given props. -/
def mountImpression (p : IrisAdProps) : List FetchRequest :=
  match p.ad, p.showB with
  | .val a, true => impressionRequests a
  | _, _ => []

/-- `handleButtonClick(event)`: a supplied custom handler receives
`targetUrl ?? ''` and the event and replaces the default; otherwise
`window.open(targetUrl, '_blank', 'noopener,noreferrer')` runs only when
`targetUrl` is truthy. -/
def handleButtonClick (a : AdResponse) (onButtonClick : Bool) (ev : Nat) :
    ClickAction :=
  let targetUrl := a.clickUrl
  if onButtonClick then
    .callHandler (targetUrl.nullishOr "") ev
  else
    match targetUrl with
    | .val s => if s = "" then .noop else .openWindow s "_blank" "noopener,noreferrer"
    | _ => .noop

end IrisAd

theorem readH_alloc_fresh (h : Heap) (v : List String) :
    readH (h ++ [v]) h.length = v := by
  simp [readH, List.getD]

theorem readH_append_of_lt (h : Heap) (v : List String) (a : Nat)
    (ha : a < h.length) : readH (h ++ [v]) a = readH h a := by
  simp [readH, List.getD, List.getElem?_append, ha]

theorem readH_writeH_ne (h : Heap) (a b : Nat) (v : List String)
    (hne : a ≠ b) : readH (writeH h b v) a = readH h a := by
  simp [readH, writeH, List.getD, List.getElem?_set_ne (Ne.symm hne)]

theorem readH_writeH_self (h : Heap) (a : Nat) (v : List String)
    (ha : a < h.length) : readH (writeH h a v) a = v := by
  simp [readH, writeH, List.getD, List.getElem?_set_self, ha]

theorem getAd_body_eq (st : IrisClientState) (h : Heap)
    (ip rp uid : String) (tr : TransportResult) :
    (IrisClient.getAd st h ip rp uid tr).body
      = { apiKey := st.apiKey, inputPrompt := ip, responsePrompt := rp,
          userId := uid, excludedTopics := readH h st.excludedTopicsRef } := by
  cases tr with
  | success data =>
      cases data with
      | undef => rfl
      | null => rfl
      | val d =>
          simp only [IrisClient.getAd]
          split <;> rfl
  | failure e => rfl

/-- C1 (counterexample): a response body whose `text` field is present but
the empty string does not yield a verbatim-copy advertisement — the
truthiness guard `response.data.text` sends it down the null path, so
`getAd` returns `null` instead of the copy the claim requires. -/
theorem getAd_empty_text_counterexample :
    (IrisClient.getAd (IrisClient.construct "k" 0) [["politics"]] "i" "r" "u"
        (.success (.val { text := .val "", impUrl := .val "https://x/imp",
                          clickUrl := .null, payout := .val 0 }))).result = none ∧
    (IrisClient.getAd (IrisClient.construct "k" 0) [["politics"]] "i" "r" "u"
        (.success (.val { text := .val "", impUrl := .val "https://x/imp",
                          clickUrl := .null, payout := .val 0 }))).result
      ≠ some { text := .val "", impUrl := .val "https://x/imp",
               clickUrl := .null, payout := .val 0 } := by
  exact ⟨rfl, by decide⟩

/-- C1 (amended): for every response whose body is present and whose `text`
field is truthy (present and non-empty), `getAd` returns an advertisement
whose four fields are a verbatim, unmodified copy of the response fields —
`null` values for `impUrl`/`clickUrl` pass through as `null`, `payout`
passes through unmodified including zero and negative values, every other
field of the response body is dropped — and no diagnostic is logged. -/
theorem getAd_success_verbatim_copy (st : IrisClientState) (h : Heap)
    (ip rp uid : String) (d : AdData) (ht : d.text.truthyStr = true) :
    (IrisClient.getAd st h ip rp uid (.success (.val d))).result
      = some { text := d.text, impUrl := d.impUrl,
               clickUrl := d.clickUrl, payout := d.payout } ∧
    (IrisClient.getAd st h ip rp uid (.success (.val d))).logs = [] ∧
    ∀ extra2 : List (String × String),
      (IrisClient.getAd st h ip rp uid
          (.success (.val { d with extra := extra2 }))).result
        = (IrisClient.getAd st h ip rp uid (.success (.val d))).result := by
  refine ⟨?_, ?_, ?_⟩ <;> simp [IrisClient.getAd, ht]

/-- C1 (witness): a concrete truthy-text response with `null` `impUrl`,
`null` `clickUrl`, negative `payout` and an extra field is copied verbatim
(minus the extra field). -/
theorem getAd_success_verbatim_copy_witness :
    (JsVal.truthyStr (JsVal.val "Buy!") = true) ∧
    (IrisClient.getAd (IrisClient.construct "k" 0) [[]] "i" "r" "u"
        (.success (.val { text := .val "Buy!", impUrl := .null,
                          clickUrl := .null, payout := .val (-3),
                          extra := [("rank", "7")] }))).result
      = some { text := .val "Buy!", impUrl := .null,
               clickUrl := .null, payout := .val (-3) } :=
  ⟨by decide,
   (getAd_success_verbatim_copy (IrisClient.construct "k" 0) [[]] "i" "r" "u"
      { text := .val "Buy!", impUrl := .null, clickUrl := .null,
        payout := .val (-3), extra := [("rank", "7")] } (by decide)).1⟩

/-- C2: on every transport-level failure `getAd` returns `null` (it never
raises: the embedding is a total function into an `Option` result) and
writes exactly one diagnostic entry whose shape matches the taxonomy case
of the failure: status/statusText/body when a response is present, the
fixed message plus the failure code when a request was sent but no
response received, the failure message when the request was never sent,
and the raw failure value for a non-Axios exception. -/
theorem getAd_failure_null_one_log (st : IrisClientState) (h : Heap)
    (ip rp uid : String) (e : JsError) :
    (IrisClient.getAd st h ip rp uid (.failure e)).result = none ∧
    (IrisClient.getAd st h ip rp uid (.failure e)).logs.length = 1 ∧
    (∀ r, e.isAxiosError = true → e.response = .val r →
      (IrisClient.getAd st h ip rp uid (.failure e)).logs
        = [.apiError "[IrisClient.getAd] API Error:" r.status r.statusText r.data]) ∧
    (e.isAxiosError = true → e.response.isVal = false → e.request.isVal = true →
      (IrisClient.getAd st h ip rp uid (.failure e)).logs
        = [.networkError "[IrisClient.getAd] Network Error:"
             "No response received from server" e.code]) ∧
    (e.isAxiosError = true → e.response.isVal = false → e.request.isVal = false →
      (IrisClient.getAd st h ip rp uid (.failure e)).logs
        = [.requestError "[IrisClient.getAd] Request Error:" e.message]) ∧
    (e.isAxiosError = false →
      (IrisClient.getAd st h ip rp uid (.failure e)).logs
        = [.unexpectedError "[IrisClient.getAd] Unexpected Error:" e]) := by
  refine ⟨rfl, ?_, ?_, ?_, ?_, ?_⟩
  · simp [IrisClient.getAd]
  · intro r hax hresp
    simp [IrisClient.getAd, IrisClient.handleError, hax, hresp]
  · intro hax hresp hreq
    cases hr : e.response <;> simp [hr, JsVal.isVal] at hresp ⊢ <;>
      simp [IrisClient.getAd, IrisClient.handleError, hax, hr, hreq]
  · intro hax hresp hreq
    cases hr : e.response <;> simp [hr, JsVal.isVal] at hresp ⊢ <;>
      simp [IrisClient.getAd, IrisClient.handleError, hax, hr, hreq]
  · intro hax
    simp [IrisClient.getAd, IrisClient.handleError, hax]

/-- C2 (witness): an Axios failure carrying a 404 response is logged as the
single server-error entry with its status, status text and body, and the
result is `null`. -/
theorem getAd_failure_null_one_log_witness :
    (IrisClient.getAd (IrisClient.construct "k" 0) [[]] "i" "r" "u"
        (.failure { isAxiosError := true,
                    response := .val { status := 404, statusText := "Not Found",
                                       data := "Endpoint not found" },
                    request := .undef, message := "Request failed",
                    code := .undef })).result = none ∧
    (IrisClient.getAd (IrisClient.construct "k" 0) [[]] "i" "r" "u"
        (.failure { isAxiosError := true,
                    response := .val { status := 404, statusText := "Not Found",
                                       data := "Endpoint not found" },
                    request := .undef, message := "Request failed",
                    code := .undef })).logs
      = [.apiError "[IrisClient.getAd] API Error:" 404 "Not Found" "Endpoint not found"] :=
  ⟨(getAd_failure_null_one_log (IrisClient.construct "k" 0) [[]] "i" "r" "u"
      { isAxiosError := true,
        response := .val { status := 404, statusText := "Not Found",
                           data := "Endpoint not found" },
        request := .undef, message := "Request failed", code := .undef }).1,
   (getAd_failure_null_one_log (IrisClient.construct "k" 0) [[]] "i" "r" "u"
      { isAxiosError := true,
        response := .val { status := 404, statusText := "Not Found",
                           data := "Endpoint not found" },
        request := .undef, message := "Request failed", code := .undef }).2.2.1
     { status := 404, statusText := "Not Found", data := "Endpoint not found" }
     rfl rfl⟩

/-- C5 (counterexample): a response whose body is present and whose `text`
field is the empty string is NOT treated as present — the truthiness check
`response.data.text` is false for the empty string, so `getAd` takes the
null path instead of returning an advertisement. -/
theorem getAd_empty_text_null_counterexample :
    (IrisClient.getAd (IrisClient.construct "key" 1) [[], ["a"]] "p" "q" "u"
        (.success (.val { text := .val "", impUrl := .undef,
                          clickUrl := .undef, payout := .undef }))).result = none ∧
    (IrisClient.getAd (IrisClient.construct "key" 1) [[], ["a"]] "p" "q" "u"
        (.success (.val { text := .val "", impUrl := .undef,
                          clickUrl := .undef, payout := .undef }))).result.isSome
      = false := by
  exact ⟨rfl, rfl⟩

/-- C5 (amended): `getAd` returns an advertisement exactly when the body is
present and its `text` field is truthy — a present but empty-string `text`
triggers the null path just like missing/null/undefined `data` or a
missing `text` field. -/
theorem getAd_result_iff_truthy_text (st : IrisClientState) (h : Heap)
    (ip rp uid : String) (data : JsVal AdData) :
    (IrisClient.getAd st h ip rp uid (.success data)).result.isSome = true
      ↔ ∃ d, data = .val d ∧ d.text.truthyStr = true := by
  cases data with
  | undef => simp [IrisClient.getAd]
  | null => simp [IrisClient.getAd]
  | val d =>
      by_cases ht : d.text.truthyStr = true
      · simp [IrisClient.getAd, ht]
      · rw [Bool.not_eq_true] at ht
        simp [IrisClient.getAd, ht]

/-- C7: a response whose body is null/undefined, or whose body is present
but lacks a `text` field, makes `getAd` return `null` with no diagnostic
log entry — the no-ad-available outcome, not an error. -/
theorem getAd_no_ad_no_log (st : IrisClientState) (h : Heap)
    (ip rp uid : String) (data : JsVal AdData)
    (h7 : data = .undef ∨ data = .null ∨ ∃ d, data = .val d ∧ d.text = .undef) :
    (IrisClient.getAd st h ip rp uid (.success data)).result = none ∧
    (IrisClient.getAd st h ip rp uid (.success data)).logs = [] := by
  rcases h7 with h7 | h7 | ⟨d, h7, htext⟩ <;> subst h7
  · simp [IrisClient.getAd]
  · simp [IrisClient.getAd]
  · simp [IrisClient.getAd, htext, JsVal.truthyStr]

/-- C7 (witness): a `null` body returns `null` and writes no log entry. -/
theorem getAd_no_ad_no_log_witness :
    ((JsVal.null : JsVal AdData) = .undef ∨ (JsVal.null : JsVal AdData) = .null ∨
      ∃ d, (JsVal.null : JsVal AdData) = .val d ∧ d.text = .undef) ∧
    (IrisClient.getAd (IrisClient.construct "k" 0) [["politics"]] "i" "r" "u"
        (.success .null)).result = none ∧
    (IrisClient.getAd (IrisClient.construct "k" 0) [["politics"]] "i" "r" "u"
        (.success .null)).logs = [] :=
  ⟨Or.inr (Or.inl rfl),
   getAd_no_ad_no_log (IrisClient.construct "k" 0) [["politics"]] "i" "r" "u"
     .null (Or.inr (Or.inl rfl))⟩

/-- C8 (counterexample): the constructor stores the caller's array
reference without copying, so mutating the caller-held array after
construction changes the `excludedTopics` the next `getAd` request body
carries — from `["politics"]` to `["politics", "crypto"]`. -/
theorem construct_alias_counterexample :
    (IrisClient.getAd (IrisClient.construct "k" 0) [["politics"]] "i" "r" "u"
        (.success .undef)).body.excludedTopics = ["politics"] ∧
    (IrisClient.getAd (IrisClient.construct "k" 0)
        (writeH [["politics"]] 0 ["politics", "crypto"]) "i" "r" "u"
        (.success .undef)).body.excludedTopics = ["politics", "crypto"] ∧
    (["politics", "crypto"] : List String) ≠ ["politics"] := by
  exact ⟨rfl, rfl, by decide⟩

/-- C8 (amended): the constructor stores the caller's list reference
without taking a copy, and `getAd` serialises the referenced list's
content at call time, so external mutation of the caller-held reference IS
reflected in the client's subsequent request bodies; the request body is a
content snapshot taken when the request is sent, and only
`getExcludedTopics` hands out an independent copy. -/
theorem construct_stores_live_reference (k : String) (a : Nat) (h : Heap)
    (v : List String) (ha : a < h.length) (ip rp uid : String)
    (tr : TransportResult) :
    (IrisClient.getAd (IrisClient.construct k a) (writeH h a v)
        ip rp uid tr).body.excludedTopics = v ∧
    (IrisClient.getExcludedTopics (IrisClient.construct k a) h).1
      ≠ IrisClientState.excludedTopicsRef (IrisClient.construct k a) := by
  constructor
  · rw [getAd_body_eq]
    exact readH_writeH_self h a v ha
  · simp [IrisClient.getExcludedTopics, IrisClient.construct, allocH]
    omega

/-- C8 (witness): with the heap `[["politics"]]` and a client constructed
over address 0, writing `["politics", "x"]` through the caller's reference
makes the next request body carry `["politics", "x"]`. -/
theorem construct_stores_live_reference_witness :
    (0 : Nat) < ([["politics"]] : Heap).length ∧
    (IrisClient.getAd (IrisClient.construct "k" 0)
        (writeH [["politics"]] 0 ["politics", "x"]) "i" "r" "u"
        (.success .undef)).body.excludedTopics = ["politics", "x"] :=
  ⟨by decide,
   (construct_stores_live_reference "k" 0 [["politics"]] ["politics", "x"]
      (by decide) "i" "r" "u" (.success .undef)).1⟩

/-- C9: `updateExcludedTopics` with a list reference followed by
`getExcludedTopics` returns a sequence equal to that list's content, and
the returned sequence is an independent copy: mutating it changes neither
the client's internal list nor the result of a later `getExcludedTopics`. -/
theorem update_then_get_roundtrip (st : IrisClientState) (h : Heap)
    (aT : Nat) (ha : aT < h.length) :
    let st2 := IrisClient.updateExcludedTopics st aT
    let rg := IrisClient.getExcludedTopics st2 h
    readH rg.2 rg.1 = readH h aT ∧
    ∀ v : List String,
      readH (writeH rg.2 rg.1 v) st2.excludedTopicsRef = readH h aT ∧
      (let rg2 := IrisClient.getExcludedTopics st2 (writeH rg.2 rg.1 v)
       readH rg2.2 rg2.1 = readH h aT) := by
  intro st2 rg
  have hst2 : st2.excludedTopicsRef = aT := rfl
  have hrg1 : rg.1 = h.length := rfl
  have hrg2 : rg.2 = h ++ [readH h aT] := rfl
  have hbase : readH rg.2 rg.1 = readH h aT := by
    rw [hrg1, hrg2]
    exact readH_alloc_fresh h (readH h aT)
  refine ⟨hbase, ?_⟩
  intro v
  have hne : aT ≠ rg.1 := by
    rw [hrg1]
    omega
  have hkeep : readH (writeH rg.2 rg.1 v) aT = readH h aT := by
    rw [readH_writeH_ne _ _ _ _ hne, hrg2, readH_append_of_lt h _ aT ha]
  refine ⟨by rw [hst2]; exact hkeep, ?_⟩
  intro rg2
  have hrg2eq : rg2 = IrisClient.getExcludedTopics st2 (writeH rg.2 rg.1 v) := rfl
  show readH rg2.2 rg2.1 = readH h aT
  rw [hrg2eq]
  show readH (writeH rg.2 rg.1 v ++ [readH (writeH rg.2 rg.1 v) st2.excludedTopicsRef])
        (writeH rg.2 rg.1 v).length = readH h aT
  rw [readH_alloc_fresh, hst2, hkeep]

/-- C9 (witness): over the heap `[["politics", "adult"]]`, updating the
client to address 0 and reading the topics back gives
`["politics", "adult"]`, and mutating the returned copy to `["hacked"]`
leaves both the internal list and a later `getExcludedTopics` result at
`["politics", "adult"]`. -/
theorem update_then_get_roundtrip_witness :
    (0 : Nat) < ([["politics", "adult"]] : Heap).length ∧
    (let st2 := IrisClient.updateExcludedTopics (IrisClient.construct "k" 7) 0
     let rg := IrisClient.getExcludedTopics st2 [["politics", "adult"]]
     readH rg.2 rg.1 = readH [["politics", "adult"]] 0 ∧
     readH (writeH rg.2 rg.1 ["hacked"]) st2.excludedTopicsRef
       = readH [["politics", "adult"]] 0 ∧
     (let rg2 := IrisClient.getExcludedTopics st2 (writeH rg.2 rg.1 ["hacked"])
      readH rg2.2 rg2.1 = readH [["politics", "adult"]] 0)) :=
  ⟨by decide,
   by
     have H := update_then_get_roundtrip (IrisClient.construct "k" 7)
       [["politics", "adult"]] 0 (by decide)
     exact ⟨H.1, (H.2 ["hacked"]).1, (H.2 ["hacked"]).2⟩⟩

/-- C4: click handling order — a supplied custom handler is invoked with
the advertisement's `clickUrl` (or the empty string when `clickUrl` is
null/absent) and the event, and no default navigation happens; with no
handler, a truthy `clickUrl` is opened via `window.open` with target
`_blank` and features `noopener,noreferrer`; otherwise (empty string,
null, or absent `clickUrl`) nothing happens. -/
theorem handleButtonClick_contract (a : AdResponse) (ev : Nat) :
    (∀ s, a.clickUrl = .val s →
      IrisAd.handleButtonClick a true ev = .callHandler s ev) ∧
    (a.clickUrl.isVal = false →
      IrisAd.handleButtonClick a true ev = .callHandler "" ev) ∧
    (∀ s, a.clickUrl = .val s → s ≠ "" →
      IrisAd.handleButtonClick a false ev
        = .openWindow s "_blank" "noopener,noreferrer") ∧
    (a.clickUrl.truthyStr = false →
      IrisAd.handleButtonClick a false ev = .noop) := by
  refine ⟨?_, ?_, ?_, ?_⟩
  · intro s hc
    simp [IrisAd.handleButtonClick, hc, JsVal.nullishOr]
  · intro hc
    cases h : a.clickUrl <;> simp [h, JsVal.isVal] at hc ⊢ <;>
      simp [IrisAd.handleButtonClick, h, JsVal.nullishOr]
  · intro s hc hs
    simp [IrisAd.handleButtonClick, hc, hs]
  · intro hc
    cases h : a.clickUrl with
    | undef => simp [IrisAd.handleButtonClick, h]
    | null => simp [IrisAd.handleButtonClick, h]
    | val s =>
        rw [h] at hc
        simp [JsVal.truthyStr] at hc
        simp [IrisAd.handleButtonClick, h, hc]

/-- C4 (witness): with a custom handler and `clickUrl = null`, the handler
receives the empty string and the event; without one, a truthy URL opens
in a new tab with `noopener,noreferrer`. -/
theorem handleButtonClick_contract_witness :
    IrisAd.handleButtonClick
        { text := .val "t", impUrl := .undef, clickUrl := .null, payout := .undef }
        true 5
      = .callHandler "" 5 ∧
    IrisAd.handleButtonClick
        { text := .val "t", impUrl := .undef, clickUrl := .val "https://x/c",
          payout := .undef }
        false 5
      = .openWindow "https://x/c" "_blank" "noopener,noreferrer" :=
  ⟨(handleButtonClick_contract
      { text := .val "t", impUrl := .undef, clickUrl := .null, payout := .undef }
      5).2.1 (by decide),
   (handleButtonClick_contract
      { text := .val "t", impUrl := .undef, clickUrl := .val "https://x/c",
        payout := .undef }
      5).2.2.1 "https://x/c" rfl (by decide)⟩

/-- C6 (counterexample): clicking with a present empty-string `clickUrl`
and no custom handler does NOT open the empty string — `if (targetUrl)` is
false for the empty string, so the handler does nothing. -/
theorem handleButtonClick_empty_url_counterexample :
    IrisAd.handleButtonClick
        { text := .val "t", impUrl := .undef, clickUrl := .val "", payout := .undef }
        false 0
      = .noop ∧
    IrisAd.handleButtonClick
        { text := .val "t", impUrl := .undef, clickUrl := .val "", payout := .undef }
        false 0
      ≠ .openWindow "" "_blank" "noopener,noreferrer" := by
  exact ⟨rfl, by decide⟩

/-- C6 (amended): clicking the control when the advertisement's `clickUrl`
is the empty string (present, not absent) and no custom click handler is
supplied performs no action at all — in particular, no navigation target
is opened. -/
theorem handleButtonClick_empty_url_noop (a : AdResponse) (ev : Nat)
    (hc : a.clickUrl = .val "") :
    IrisAd.handleButtonClick a false ev = .noop := by
  simp [IrisAd.handleButtonClick, hc]

/-- C6 amended (witness): concrete empty-string `clickUrl`, no handler. -/
theorem handleButtonClick_empty_url_noop_witness :
    IrisAd.handleButtonClick
        { text := .val "ad", impUrl := .val "https://x/imp", clickUrl := .val "",
          payout := .val 1 }
        false 3
      = .noop :=
  handleButtonClick_empty_url_noop
    { text := .val "ad", impUrl := .val "https://x/imp", clickUrl := .val "",
      payout := .val 1 }
    3 rfl

/-- C10: the rendering decision depends only on the truthiness of `show`
and the presence of the advertisement, never on the advertisement's
contents; whenever the advertisement is present and `show` truthy, the
full container/text/button structure is rendered with its `data-iris-ad`
markers, for every advertisement value (empty `text` and absent URL fields
included). -/
theorem irisAd_render_structure (p : IrisAdProps) :
    ((IrisAd.render p).isSome = (p.ad.isVal && p.showB)) ∧
    (∀ a, p.ad = .val a → p.showB = true →
      IrisAd.render p = some
        { containerClass := p.className, containerMarker := "container",
          textClass := p.textClassName, textMarker := "text",
          text := a.text,
          buttonClass := p.buttonClassName, buttonMarker := "button",
          buttonLabel := p.buttonLabel }) := by
  constructor
  · cases h : p.ad <;> cases hs : p.showB <;>
      simp [IrisAd.render, h, hs, JsVal.isVal]
  · intro a ha hs
    simp [IrisAd.render, IrisAd.renderBody, ha, hs]

/-- C10 (witness): an advertisement with empty `text` and every URL field
absent still renders the full marked structure when `show` is true. -/
theorem irisAd_render_structure_witness :
    (JsVal.val { text := .val "", impUrl := .undef, clickUrl := .undef,
                 payout := .undef }
      = JsVal.val ({ text := .val "", impUrl := .undef, clickUrl := .undef,
                     payout := .undef } : AdResponse)) ∧
    IrisAd.render
        { ad := .val { text := .val "", impUrl := .undef, clickUrl := .undef,
                       payout := .undef },
          showProp := .val true }
      = some
        { containerClass := .undef, containerMarker := "container",
          textClass := .undef, textMarker := "text",
          text := .val "",
          buttonClass := .undef, buttonMarker := "button",
          buttonLabel := .val "Learn More" } :=
  ⟨rfl,
   (irisAd_render_structure
      { ad := .val { text := .val "", impUrl := .undef, clickUrl := .undef,
                     payout := .undef },
        showProp := .val true }).2
     { text := .val "", impUrl := .undef, clickUrl := .undef, payout := .undef }
     rfl rfl⟩

theorem renderStep_fired (p : IrisAdProps) :
    IrisAd.renderStep p ⟨true⟩ = (IrisAd.render p, [], ⟨true⟩) := by
  cases h : p.ad <;> cases hs : p.showB <;>
    simp [IrisAd.renderStep, IrisAd.render, h, hs]

theorem renderStep_inactive (p : IrisAdProps) (s : IrisAd.InstState)
    (hA : IrisAd.activeStep p = false) :
    IrisAd.renderStep p s = (none, [], s) := by
  cases h : p.ad <;> cases hs : p.showB <;>
    simp [IrisAd.activeStep, h, hs, JsVal.isVal] at hA ⊢ <;>
    simp [IrisAd.renderStep, h, hs]

theorem renderStep_active (p : IrisAdProps) (a : AdResponse)
    (ha : p.ad = .val a) (hs : p.showB = true) :
    IrisAd.renderStep p ⟨false⟩
      = (some (IrisAd.renderBody p a), IrisAd.impressionRequests a, ⟨true⟩) := by
  simp [IrisAd.renderStep, ha, hs]

theorem runMount_fired_join (ps : List IrisAdProps) :
    ((IrisAd.runMount ps ⟨true⟩).map Prod.snd).flatten = [] := by
  induction ps with
  | nil => rfl
  | cons p ps ih => simp [IrisAd.runMount, renderStep_fired, ih]

theorem firstActive_active (ps : List IrisAdProps) (p : IrisAdProps)
    (h : IrisAd.firstActive ps = some p) : IrisAd.activeStep p = true := by
  induction ps with
  | nil => simp [IrisAd.firstActive] at h
  | cons q ps ih =>
      by_cases hq : IrisAd.activeStep q = true
      · simp [IrisAd.firstActive, hq] at h
        rw [← h]
        exact hq
      · have hq2 : IrisAd.activeStep q = false := by simpa using hq
        simp [IrisAd.firstActive, hq2] at h
        exact ih h

theorem runMount_join_eq (ps : List IrisAdProps) :
    ((IrisAd.runMount ps ⟨false⟩).map Prod.snd).flatten
      = (IrisAd.firstActive ps).elim [] IrisAd.mountImpression := by
  induction ps with
  | nil => rfl
  | cons p ps ih =>
      by_cases hA : IrisAd.activeStep p = true
      · obtain ⟨a, ha⟩ : ∃ a, p.ad = .val a := by
          rcases h : p.ad with _ | _ | a
          · rw [IrisAd.activeStep, h] at hA
            simp [JsVal.isVal] at hA
          · rw [IrisAd.activeStep, h] at hA
            simp [JsVal.isVal] at hA
          · exact ⟨a, rfl⟩
        have hs : p.showB = true := by
          rw [IrisAd.activeStep, ha] at hA
          simpa [JsVal.isVal] using hA
        simp [IrisAd.runMount, renderStep_active p a ha hs, IrisAd.firstActive,
              hA, Option.elim, IrisAd.mountImpression, ha, hs, runMount_fired_join]
      · have hA2 : IrisAd.activeStep p = false := by simpa using hA
        simp [IrisAd.runMount, renderStep_inactive p _ hA2, IrisAd.firstActive,
              hA2, ih]

theorem runMount_step_reqs (ps : List IrisAdProps) :
    ∀ s : IrisAd.InstState, ∀ pr ∈ IrisAd.runMount ps s, pr.2 ≠ [] →
      IrisAd.activeStep pr.1 = true ∧ pr.2 = IrisAd.mountImpression pr.1 ∧
      ∀ r ∈ pr.2, r.method = "GET" ∧ r.mode = "no-cors" ∧ r.url ≠ "" := by
  induction ps with
  | nil =>
      intro s pr hpr
      simp [IrisAd.runMount] at hpr
  | cons p ps ih =>
      intro s pr hpr
      simp only [IrisAd.runMount, List.mem_cons] at hpr
      rcases hpr with hpr | hpr
      · subst hpr
        intro hne
        rcases h : p.ad with _ | _ | a
        · simp [IrisAd.renderStep, h] at hne
        · simp [IrisAd.renderStep, h] at hne
        · cases hs : p.showB
          · simp [IrisAd.renderStep, h, hs] at hne
          · cases hf : s.effectFired
            · have hreq : (IrisAd.renderStep p s).2.1
                  = IrisAd.impressionRequests a := by
                simp [IrisAd.renderStep, h, hs, hf]
              refine ⟨by simp [IrisAd.activeStep, h, hs, JsVal.isVal], ?_, ?_⟩
              · rw [hreq]
                simp [IrisAd.mountImpression, h, hs]
              · intro r hr
                rw [hreq] at hr
                rcases hu : a.impUrl with _ | _ | u
                · simp [IrisAd.impressionRequests, hu] at hr
                · simp [IrisAd.impressionRequests, hu] at hr
                · by_cases hue : u = ""
                  · simp [IrisAd.impressionRequests, hu, hue] at hr
                  · simp [IrisAd.impressionRequests, hu, hue] at hr
                    simp [hr, hue]
            · simp [IrisAd.renderStep, h, hs, hf] at hne
      · exact ih _ pr hpr

theorem impressionRequests_length_le (a : AdResponse) :
    (IrisAd.impressionRequests a).length ≤ 1 := by
  rcases h : a.impUrl with _ | _ | u
  · simp [IrisAd.impressionRequests, h]
  · simp [IrisAd.impressionRequests, h]
  · by_cases hue : u = "" <;> simp [IrisAd.impressionRequests, h, hue]

theorem mountImpression_length_le (p : IrisAdProps) :
    (IrisAd.mountImpression p).length ≤ 1 := by
  rcases h : p.ad with _ | _ | a <;> cases hs : p.showB <;>
    simp [IrisAd.mountImpression, h, hs, impressionRequests_length_le]

/-- C3: over any sequence of renders of one mounted `IrisAd` instance, at
most one impression request is ever issued; requests are issued only at an
active render (`show` truthy and `ad` present) and equal exactly what the
mount effect fires there; the total requests are exactly those of the
first active render, so they are a single GET to the ad's `impUrl` when
that URL is a non-empty string and nothing otherwise; with no active
render at all, nothing is issued. -/
theorem irisAd_impression_once (ps : List IrisAdProps) :
    ((IrisAd.runMount ps ⟨false⟩).map Prod.snd).flatten.length ≤ 1 ∧
    (∀ pr ∈ IrisAd.runMount ps ⟨false⟩, pr.2 ≠ [] →
      IrisAd.activeStep pr.1 = true ∧ pr.2 = IrisAd.mountImpression pr.1 ∧
      ∀ r ∈ pr.2, r.method = "GET" ∧ r.mode = "no-cors" ∧ r.url ≠ "") ∧
    (∀ p a, IrisAd.firstActive ps = some p → p.ad = .val a →
      ((IrisAd.runMount ps ⟨false⟩).map Prod.snd).flatten
          = IrisAd.impressionRequests a ∧
      (IrisAd.impressionRequests a = [] ↔ a.impUrl.truthyStr = false)) ∧
    (IrisAd.firstActive ps = none →
      ((IrisAd.runMount ps ⟨false⟩).map Prod.snd).flatten = []) := by
  refine ⟨?_, runMount_step_reqs ps ⟨false⟩, ?_, ?_⟩
  · rw [runMount_join_eq]
    cases hfa : IrisAd.firstActive ps with
    | none => simp
    | some p => simpa [Option.elim] using mountImpression_length_le p
  · intro p a hfa ha
    constructor
    · rw [runMount_join_eq, hfa]
      have hA := firstActive_active ps p hfa
      have hs : p.showB = true := by
        rw [IrisAd.activeStep, ha] at hA
        simpa [JsVal.isVal] using hA
      simp [Option.elim, IrisAd.mountImpression, ha, hs]
    · rcases hu : a.impUrl with _ | _ | u
      · simp [IrisAd.impressionRequests, hu, JsVal.truthyStr]
      · simp [IrisAd.impressionRequests, hu, JsVal.truthyStr]
      · by_cases hue : u = "" <;>
          simp [IrisAd.impressionRequests, hu, hue, JsVal.truthyStr]
  · intro hfa
    rw [runMount_join_eq, hfa]
    rfl

/-- C3 (witness): mounting with a shown ad whose `impUrl` is
`https://x/imp` issues exactly the single fire-and-forget GET to it. -/
theorem irisAd_impression_once_witness :
    IrisAd.firstActive
        [{ ad := .val { text := .val "t", impUrl := .val "https://x/imp",
                        clickUrl := .undef, payout := .undef } }]
      = some { ad := .val { text := .val "t", impUrl := .val "https://x/imp",
                            clickUrl := .undef, payout := .undef } } ∧
    ((IrisAd.runMount
        [{ ad := .val { text := .val "t", impUrl := .val "https://x/imp",
                        clickUrl := .undef, payout := .undef } }]
        ⟨false⟩).map Prod.snd).flatten
      = IrisAd.impressionRequests
          { text := .val "t", impUrl := .val "https://x/imp",
            clickUrl := .undef, payout := .undef } ∧
    IrisAd.impressionRequests
        { text := .val "t", impUrl := .val "https://x/imp",
          clickUrl := .undef, payout := .undef }
      = [{ url := "https://x/imp", method := "GET", mode := "no-cors" }] :=
  ⟨by decide,
   ((irisAd_impression_once
      [{ ad := .val { text := .val "t", impUrl := .val "https://x/imp",
                      clickUrl := .undef, payout := .undef } }]).2.2.1
      { ad := .val { text := .val "t", impUrl := .val "https://x/imp",
                     clickUrl := .undef, payout := .undef } }
      { text := .val "t", impUrl := .val "https://x/imp",
        clickUrl := .undef, payout := .undef }
      (by decide) rfl).1,
   by decide⟩
